import Mathlib

/-!
Shallow embedding of `selfdrive/controls/lib/drive_helpers.py`:
the cruise-speed state machine (`VCruiseHelper`) and the curvature
lag compensator (`get_lag_adjusted_curvature`), over exact rationals.
Python's float arithmetic is modelled by `ℚ`; Python's `round`
(banker's rounding, half to even) is modelled exactly by `intRound`.
-/

/-! ## Constants from drive_helpers.py -/

def V_CRUISE_MAX : ℚ := 145

def V_CRUISE_MIN : ℚ := 8

def V_CRUISE_MIN_HONDA : ℚ := 5

def V_CRUISE_DELTA_HONDA : ℚ := 5

def V_CRUISE_ENABLE_MIN_MPH : ℚ := 32

def V_CRUISE_ENABLE_MIN_KPH : ℚ := 30

def V_CRUISE_INITIAL : ℚ := 255

def MIN_SPEED : ℚ := 1

def CONTROL_N : ℕ := 17

def MAX_LATERAL_JERK : ℚ := 5

def CRUISE_LONG_PRESS : ℕ := 50

/-- Modelled from the spec: the unit-conversion helper `CV.MS_TO_KPH`
(external collaborator `common.conversions`); 1 m/s = 3.6 kph. -/
def MS_TO_KPH : ℚ := 18 / 5

/-- Modelled from the spec: the fixed control period `DT_CTRL`
(external collaborator `common.realtime`), 0.01 s per control cycle. -/
def DT_CTRL : ℚ := 1 / 100

/-- Modelled from the spec: one model/planning step duration `DT_MDL`
(external collaborator `common.realtime`), 0.05 s. -/
def DT_MDL : ℚ := 1 / 20

/-- Modelled from the spec: the model's fixed future time grid `T_IDXS`
(external collaborator `selfdrive.modeld.constants`), the standard
33-point quadratic grid `10 * (i/32)^2`. -/
def T_IDXS : List ℚ := (List.range 33).map (fun i => 10 * (i : ℚ) ^ 2 / 1024)

/-! ## Numeric helpers (common.numpy_fast, Python builtins) -/

/-- `common.numpy_fast.clip(x, lo, hi) = max(lo, min(hi, x))`. -/
def clip (x lo hi : ℚ) : ℚ := max lo (min hi x)

/-- Python's `%` on rationals with the sign convention of the divisor:
`a % b = a - b * floor (a / b)`. -/
def qmod (a b : ℚ) : ℚ := a - b * ⌊a / b⌋

/-- Python 3's `round(x)`: round half to even (banker's rounding). -/
def intRound (x : ℚ) : ℤ :=
  let f : ℤ := ⌊x⌋
  if x - f < 1 / 2 then f
  else if (1 : ℚ) / 2 < x - f then f + 1
  else if f % 2 = 0 then f else f + 1

/-- Python 3's `round(x, 1)`: round to one decimal, half to even. -/
def round1 (x : ℚ) : ℚ := (intRound (10 * x) : ℚ) / 10

/-- `common.numpy_fast.interp` (scalar case): linear interpolation of
`fp` over the grid `xp`, clamped at both ends.  Out-of-range list reads
(impossible on the sorted nonempty grids used by the code) default to 0. -/
def interp (x : ℚ) (xp fp : List ℚ) : ℚ :=
  let N := xp.length
  let hi := xp.findIdx (fun v => decide (x ≤ v))
  let low := hi - 1
  if hi = N ∧ x > xp.getD low 0 then fp.getD (fp.length - 1) 0
  else if hi = 0 then fp.getD 0 0
  else
    (x - xp.getD low 0) * (fp.getD hi 0 - fp.getD low 0) /
      (xp.getD hi 0 - xp.getD low 0) + fp.getD low 0

/-! ## Car parameter / car state data model -/

structure CarParams where
  pcmCruise : Bool
  pcmCruiseSpeed : Bool
  carName : String
  steerActuatorDelay : ℚ
deriving DecidableEq

inductive ButtonType where
  | accelCruise
  | decelCruise
  | setCruise
  | resumeCruise
  | cancel
deriving DecidableEq

structure CSButtonEvent where
  type : ButtonType
  pressed : Bool
deriving DecidableEq

structure CruiseStateData where
  available : Bool
  enabled : Bool
  standstill : Bool
  speed : ℚ
  speedCluster : ℚ
deriving DecidableEq

structure CarStateData where
  cruiseState : CruiseStateData
  buttonEvents : List CSButtonEvent
  gasPressed : Bool
  vEgo : ℚ
deriving DecidableEq

/-! ## Curvature lag compensation (`get_lag_adjusted_curvature`)

Fallible list indexing (`curvatures[0]`, `curvature_rates[0]`) is modelled
with `Option`: a `none` result corresponds to an uncaught `IndexError`. -/

def get_lag_adjusted_curvature (CP : CarParams) (v_ego : ℚ)
    (psis curvatures curvature_rates : List ℚ) : Option (ℚ × ℚ) :=
  let psis' := if psis.length ≠ CONTROL_N then List.replicate CONTROL_N (0 : ℚ) else psis
  let curvatures' := if psis.length ≠ CONTROL_N then List.replicate CONTROL_N (0 : ℚ) else curvatures
  let curvature_rates' := if psis.length ≠ CONTROL_N then List.replicate CONTROL_N (0 : ℚ) else curvature_rates
  let v := max MIN_SPEED v_ego
  let delay := CP.steerActuatorDelay + 1 / 5
  match curvatures'.get? 0 with
  | none => none
  | some current_curvature_desired =>
    let psi := interp delay (T_IDXS.take CONTROL_N) psis'
    let average_curvature_desired := psi / (v * delay)
    let desired_curvature := 2 * average_curvature_desired - current_curvature_desired
    match curvature_rates'.get? 0 with
    | none => none
    | some desired_curvature_rate =>
      let max_curvature_rate := MAX_LATERAL_JERK / v ^ 2
      let safe_desired_curvature_rate :=
        clip desired_curvature_rate (-max_curvature_rate) max_curvature_rate
      let safe_desired_curvature :=
        clip desired_curvature
          (current_curvature_desired - max_curvature_rate * DT_MDL)
          (current_curvature_desired + max_curvature_rate * DT_MDL)
      some (safe_desired_curvature, safe_desired_curvature_rate)

/-! ## VCruiseHelper state -/

structure VCruiseHelper where
  CP : CarParams
  v_cruise_kph : ℚ
  v_cruise_cluster_kph : ℚ
  v_cruise_kph_last : ℚ
  button_timer_accel : ℕ
  button_timer_decel : ℕ
  standstill_accel : Bool
  standstill_decel : Bool
  accel_pressed : Bool
  decel_pressed : Bool
  accel_pressed_last : ℚ
  decel_pressed_last : ℚ
  fastMode : Bool
  reverse_acc_change : Bool
deriving DecidableEq

/-- `VCruiseHelper.__init__`: the freshly constructed helper (the
`ReverseAccChange` boolean read from the external store is an argument). -/
def mkVCruiseHelper (CP : CarParams) (reverse_setting : Bool) : VCruiseHelper :=
  { CP := CP
    v_cruise_kph := V_CRUISE_INITIAL
    v_cruise_cluster_kph := V_CRUISE_INITIAL
    v_cruise_kph_last := 0
    button_timer_accel := 0
    button_timer_decel := 0
    standstill_accel := false
    standstill_decel := false
    accel_pressed := false
    decel_pressed := false
    accel_pressed_last := 0
    decel_pressed_last := 0
    fastMode := false
    reverse_acc_change := reverse_setting }

/-- `v_cruise_initialized` property. -/
def v_cruise_initialized (s : VCruiseHelper) : Bool :=
  decide (s.v_cruise_kph ≠ V_CRUISE_INITIAL)

/-- `b.type.raw in self.button_timers`: the two tracked button kinds. -/
def tracked : ButtonType → Bool
  | ButtonType.accelCruise => true
  | ButtonType.decelCruise => true
  | _ => false

def isTrackedRelease (b : CSButtonEvent) : Bool := tracked b.type && !b.pressed

/-- `CRUISE_NEAREST_FUNC`: `math.ceil` for accel, `math.floor` for decel. -/
def cruiseNearest : ButtonType → ℚ → ℤ
  | ButtonType.accelCruise, q => ⌈q⌉
  | ButtonType.decelCruise, q => ⌊q⌋
  | _, _ => 0

/-- `CRUISE_INTERVAL_SIGN`: +1 for accel, -1 for decel. -/
def cruiseIntervalSign : ButtonType → ℚ
  | ButtonType.accelCruise => 1
  | ButtonType.decelCruise => -1
  | _ => 0

/-- The adjustment applied by `VCruiseHelper._update_v_cruise_non_pcm` once a
button (`bt`) and press kind (`long_press`) have been selected: standstill
suppression, snap-or-step, gas-override clamp, then clip and round. -/
def nonPcmAdjust (rev : Bool) (ss_accel ss_decel : Bool) (standstill gas : Bool)
    (vEgo : ℚ) (is_metric : Bool) (bt : ButtonType) (long_press : Bool) (v : ℚ) : ℚ :=
  let v_cruise_delta : ℚ := if is_metric then 1 else 8 / 5
  let delta_mult : ℚ := if is_metric then 10 else 5
  let ssOf : Bool := if bt = ButtonType.accelCruise then ss_accel else ss_decel
  if bt = ButtonType.accelCruise ∧ (ssOf || standstill) = true then v
  else
    let v1 :=
      if rev then
        let d := v_cruise_delta * (if long_press then 1 else delta_mult)
        if long_press = false ∧ qmod v d ≠ 0 then (cruiseNearest bt (v / d) : ℚ) * d
        else v + d * cruiseIntervalSign bt
      else
        let d := v_cruise_delta * (if long_press then delta_mult else 1)
        if long_press = true ∧ qmod v d ≠ 0 then (cruiseNearest bt (v / d) : ℚ) * d
        else v + d * cruiseIntervalSign bt
    let v2 :=
      if gas ∧ (bt = ButtonType.decelCruise ∨ bt = ButtonType.setCruise) then
        max v1 (vEgo * MS_TO_KPH)
      else v1
    clip (round1 v2) V_CRUISE_MIN V_CRUISE_MAX

/-- The speed computation of `VCruiseHelper._update_v_cruise_non_pcm`
(the simple, non-Honda sub-policy), as a function of exactly the state
components it reads.  Returns the new `v_cruise_kph`.  A release edge of a
tracked button takes priority (ending a long press returns unchanged); with
no edge, a held timer at a nonzero multiple of `CRUISE_LONG_PRESS` fires a
long-press tick, the decel button checked first (dict iteration order). -/
def nonPcmCore (rev : Bool) (timer_accel timer_decel : ℕ) (ss_accel ss_decel : Bool)
    (events : List CSButtonEvent) (standstill gas : Bool) (vEgo : ℚ)
    (enabled_long is_metric : Bool) (v : ℚ) : ℚ :=
  if enabled_long = false then v else
  match events.find? isTrackedRelease with
  | some b =>
    if (if b.type = ButtonType.accelCruise then timer_accel else timer_decel) >
        CRUISE_LONG_PRESS then v
    else nonPcmAdjust rev ss_accel ss_decel standstill gas vEgo is_metric b.type false v
  | none =>
    if timer_decel ≠ 0 ∧ timer_decel % CRUISE_LONG_PRESS = 0 then
      nonPcmAdjust rev ss_accel ss_decel standstill gas vEgo is_metric
        ButtonType.decelCruise true v
    else if timer_accel ≠ 0 ∧ timer_accel % CRUISE_LONG_PRESS = 0 then
      nonPcmAdjust rev ss_accel ss_decel standstill gas vEgo is_metric
        ButtonType.accelCruise true v
    else v

/-- `VCruiseHelper._update_v_cruise_non_pcm`: only `v_cruise_kph` is written. -/
def update_v_cruise_non_pcm (CS : CarStateData) (enabled_long is_metric : Bool)
    (s : VCruiseHelper) : VCruiseHelper :=
  let vNew :=
    nonPcmCore s.reverse_acc_change s.button_timer_accel s.button_timer_decel
      s.standstill_accel s.standstill_decel CS.buttonEvents
      CS.cruiseState.standstill CS.gasPressed CS.vEgo enabled_long is_metric
      s.v_cruise_kph
  { s with v_cruise_kph := vNew }

/-- The Honda kph-to-display-unit conversion
`int(round(v * 0.6233 + 0.0995))` used when not metric. -/
def hondaFwd (v : ℚ) : ℚ := (intRound (v * (6233 / 10000) + 995 / 10000) : ℚ)

/-- The Honda display-unit-to-kph back conversion
`int(round((float(round(v)) - 0.0995) / 0.6233))` used when not metric. -/
def hondaBwd (v : ℚ) : ℚ :=
  (intRound (((intRound v : ℚ) - 995 / 10000) / (6233 / 10000)) : ℚ)

/-- One button event of the release-edge loop of
`_update_v_cruise_non_pcm_honda` (including the per-event gas-override
clamp at the loop's tail). -/
def hondaEdgeStep (rev fast gas : Bool) (vEgo : ℚ) (b : CSButtonEvent) (v : ℚ) : ℚ :=
  let v1 :=
    if b.pressed = false then
      if b.type = ButtonType.accelCruise then
        if fast = false then
          (if rev then v + (V_CRUISE_DELTA_HONDA - qmod v V_CRUISE_DELTA_HONDA) else v + 1)
        else v
      else if b.type = ButtonType.decelCruise then
        if fast = false then
          (if rev then
            v - (V_CRUISE_DELTA_HONDA - qmod (V_CRUISE_DELTA_HONDA - v) V_CRUISE_DELTA_HONDA)
          else v - 1)
        else v
      else v
    else v
  if gas ∧ (b.type = ButtonType.decelCruise ∨ b.type = ButtonType.setCruise) then
    max v1 (vEgo * MS_TO_KPH)
  else v1

/-- The speed computation of `VCruiseHelper._update_v_cruise_non_pcm_honda`
(the Honda ramping sub-policy), as a function of exactly the state
components it reads.  Returns the new `v_cruise_kph` (in the vehicle's
display unit when not metric). -/
def hondaSpeedCore (rev fast ap dp : Bool) (alast dlast cur_time : ℚ)
    (events : List CSButtonEvent) (gas : Bool) (vEgo : ℚ)
    (enabled_long is_metric : Bool) (v : ℚ) : ℚ :=
  let v0 := if is_metric then v else hondaFwd v
  if enabled_long then
    let v1 :=
      if ap then
        if cur_time - alast ≥ 1 ∨ (fast = true ∧ cur_time - alast ≥ 1 / 2) then
          if rev then v0 + 1
          else v0 + (V_CRUISE_DELTA_HONDA - qmod v0 V_CRUISE_DELTA_HONDA)
        else v0
      else if dp then
        if cur_time - dlast ≥ 1 ∨ (fast = true ∧ cur_time - dlast ≥ 1 / 2) then
          if rev then v0 - 1
          else v0 - (V_CRUISE_DELTA_HONDA - qmod (V_CRUISE_DELTA_HONDA - v0) V_CRUISE_DELTA_HONDA)
        else v0
      else events.foldl (fun w b => hondaEdgeStep rev fast gas vEgo b w) v0
    clip v1 V_CRUISE_MIN_HONDA V_CRUISE_MAX
  else v0

/-- `VCruiseHelper._update_v_cruise_non_pcm_honda`: only `v_cruise_kph`
is written. -/
def update_v_cruise_non_pcm_honda (CS : CarStateData) (enabled_long is_metric : Bool)
    (cur_time : ℚ) (s : VCruiseHelper) : VCruiseHelper :=
  let vNew :=
    hondaSpeedCore s.reverse_acc_change s.fastMode s.accel_pressed s.decel_pressed
      s.accel_pressed_last s.decel_pressed_last cur_time CS.buttonEvents
      CS.gasPressed CS.vEgo enabled_long is_metric s.v_cruise_kph
  { s with v_cruise_kph := vNew }

/-- The latched pressed flag of one button after the Honda press/release
latch loop at the top of `update_v_cruise` (last event for that button wins). -/
def latchPressed (btv : ButtonType) (events : List CSButtonEvent) (old : Bool) : Bool :=
  events.foldl (fun p b => if b.type = btv then b.pressed else p) old

/-- The latched press timestamp of one button after the Honda latch loop
(set to the current time on each press event of that button). -/
def latchLast (btv : ButtonType) (cur_time : ℚ) (events : List CSButtonEvent)
    (old : ℚ) : ℚ :=
  events.foldl (fun t b => if b.type = btv ∧ b.pressed = true then cur_time else t) old

/-- The Honda press/release latch loop at the top of `update_v_cruise`
(each latched field folds the ordered event list independently). -/
def honda_latch (cur_time : ℚ) (events : List CSButtonEvent)
    (s : VCruiseHelper) : VCruiseHelper :=
  { s with
    accel_pressed := latchPressed ButtonType.accelCruise events s.accel_pressed
    decel_pressed := latchPressed ButtonType.decelCruise events s.decel_pressed
    accel_pressed_last :=
      latchLast ButtonType.accelCruise cur_time events s.accel_pressed_last
    decel_pressed_last :=
      latchLast ButtonType.decelCruise cur_time events s.decel_pressed_last }

/-- The new value of one button's hold timer after
`VCruiseHelper.update_button_timers`: held timers are incremented, then
each event for that button restarts the timer at 1 (press) or 0 (release),
the last event winning. -/
def nextTimer (events : List CSButtonEvent) (bt : ButtonType) (t : ℕ) : ℕ :=
  let t1 := if t > 0 then t + 1 else t
  events.foldl (fun u b => if b.type = bt then (if b.pressed then 1 else 0) else u) t1

/-- The new stored-standstill flag of one button after
`VCruiseHelper.update_button_timers`: captured on each press/release change. -/
def nextStandstill (events : List CSButtonEvent) (bt : ButtonType)
    (standstill old : Bool) : Bool :=
  events.foldl (fun f b => if b.type = bt then standstill else f) old

/-- `VCruiseHelper.update_button_timers`. -/
def update_button_timers (CS : CarStateData) (s : VCruiseHelper) : VCruiseHelper :=
  { s with
    button_timer_accel :=
      nextTimer CS.buttonEvents ButtonType.accelCruise s.button_timer_accel
    button_timer_decel :=
      nextTimer CS.buttonEvents ButtonType.decelCruise s.button_timer_decel
    standstill_accel :=
      nextStandstill CS.buttonEvents ButtonType.accelCruise CS.cruiseState.standstill
        s.standstill_accel
    standstill_decel :=
      nextStandstill CS.buttonEvents ButtonType.decelCruise CS.cruiseState.standstill
        s.standstill_decel }

/-- `VCruiseHelper.update_v_cruise`.  `frame` is `sm.frame`; the
`ReverseAccChange` boolean re-read from the external store each cycle is
the argument `reverse_setting`. -/
def update_v_cruise (CS : CarStateData) (enabled_long is_metric : Bool)
    (frame : ℕ) (reverse_setting : Bool) (s : VCruiseHelper) : VCruiseHelper :=
  let s := { s with v_cruise_kph_last := s.v_cruise_kph,
                    reverse_acc_change := reverse_setting }
  let cur_time : ℚ := (frame : ℚ) * DT_CTRL
  if CS.cruiseState.available then
    if ¬(s.CP.pcmCruise = true ∧ s.CP.pcmCruiseSpeed = true) then
      if CS.cruiseState.enabled then
        if s.CP.carName = "honda" then
          let s := honda_latch cur_time CS.buttonEvents s
          let s := update_v_cruise_non_pcm_honda CS enabled_long is_metric cur_time s
          let s := { s with v_cruise_kph :=
                       if is_metric then s.v_cruise_kph else hondaBwd s.v_cruise_kph }
          let s := { s with v_cruise_cluster_kph := s.v_cruise_kph }
          if s.accel_pressed || s.decel_pressed then
            if s.v_cruise_kph_last ≠ s.v_cruise_kph then
              { s with accel_pressed_last := cur_time,
                       decel_pressed_last := cur_time,
                       fastMode := true }
            else s
          else { s with fastMode := false }
        else
          let s := update_v_cruise_non_pcm CS enabled_long is_metric s
          let s := { s with v_cruise_cluster_kph := s.v_cruise_kph }
          update_button_timers CS s
      else s
    else
      { s with v_cruise_kph := CS.cruiseState.speed * MS_TO_KPH,
               v_cruise_cluster_kph := CS.cruiseState.speedCluster * MS_TO_KPH }
  else
    { s with v_cruise_kph := V_CRUISE_INITIAL,
             v_cruise_cluster_kph := V_CRUISE_INITIAL }

/-- `VCruiseHelper.initialize_v_cruise` (engagement-time speed restore). -/
def init_v_cruise (CS : CarStateData) (is_metric : Bool)
    (s : VCruiseHelper) : VCruiseHelper :=
  if s.CP.pcmCruise = true ∧ s.CP.pcmCruiseSpeed = true then s
  else if (CS.buttonEvents.any fun b =>
      decide (b.type = ButtonType.accelCruise) || decide (b.type = ButtonType.resumeCruise))
      ∧ s.v_cruise_kph_last < 250 then
    let s := { s with v_cruise_kph := s.v_cruise_kph_last }
    { s with v_cruise_cluster_kph := s.v_cruise_kph }
  else
    let v : ℚ :=
      (intRound (clip (CS.vEgo * MS_TO_KPH)
        (if is_metric then V_CRUISE_ENABLE_MIN_KPH else V_CRUISE_ENABLE_MIN_MPH)
        V_CRUISE_MAX) : ℚ)
    let s := { s with v_cruise_kph := v }
    { s with v_cruise_cluster_kph := s.v_cruise_kph }

/-! ## Basic lemmas about the numeric helpers -/

theorem clip_ge_lo (x lo hi : ℚ) : lo ≤ clip x lo hi := le_max_left _ _

theorem clip_le_hi (x lo hi : ℚ) (h : lo ≤ hi) : clip x lo hi ≤ hi := by
  unfold clip
  exact max_le h (min_le_left _ _)

theorem clip_of_mem (x lo hi : ℚ) (h1 : lo ≤ x) (h2 : x ≤ hi) : clip x lo hi = x := by
  unfold clip
  rw [min_eq_right h2, max_eq_right h1]

theorem clip_idem (x lo hi : ℚ) (h : lo ≤ hi) : clip (clip x lo hi) lo hi = clip x lo hi :=
  clip_of_mem _ _ _ (clip_ge_lo _ _ _) (clip_le_hi _ _ _ h)

theorem intRound_dist_le (x : ℚ) : |(intRound x : ℚ) - x| ≤ 1 / 2 := by
  have h0 : ((⌊x⌋ : ℤ) : ℚ) ≤ x := Int.floor_le x
  have h1 : x < (⌊x⌋ : ℚ) + 1 := Int.lt_floor_add_one x
  unfold intRound
  dsimp only
  split_ifs with a b c
  · rw [abs_le]
    constructor <;> linarith
  · rw [abs_le]
    push_cast
    constructor <;> linarith
  · rw [abs_le]
    have : x - (⌊x⌋ : ℚ) = 1 / 2 := le_antisymm (not_lt.mp b) (not_lt.mp a)
    constructor <;> linarith
  · rw [abs_le]
    have : x - (⌊x⌋ : ℚ) = 1 / 2 := le_antisymm (not_lt.mp b) (not_lt.mp a)
    push_cast
    constructor <;> linarith

theorem intRound_add_small (m : ℤ) (δ : ℚ) (h : |δ| < 1 / 2) :
    intRound ((m : ℚ) + δ) = m := by
  rcases abs_lt.mp h with ⟨h1, h2⟩
  unfold intRound
  by_cases h0 : 0 ≤ δ
  · have hf : ⌊(m : ℚ) + δ⌋ = m := by
      rw [Int.floor_eq_iff]
      constructor
      · linarith
      · linarith
    rw [hf]
    dsimp only
    split_ifs with a b c
    · rfl
    · exfalso
      linarith
    · exfalso
      push_cast at a
      linarith
    · exfalso
      push_cast at a
      linarith
  · have hf : ⌊(m : ℚ) + δ⌋ = m - 1 := by
      rw [Int.floor_eq_iff]
      constructor
      · push_cast
        linarith
      · push_cast
        linarith
    rw [hf]
    dsimp only
    split_ifs with a b c
    · exfalso
      push_cast at a
      linarith
    · omega
    · exfalso
      push_cast at b
      linarith
    · exfalso
      push_cast at b
      linarith

theorem intRound_intCast (m : ℤ) : intRound (m : ℚ) = m := by
  have := intRound_add_small m 0 (by norm_num)
  simpa using this

/-- The Honda display-unit roundtrip is stable: converting an integer
display value back to kph and to display units again returns it. -/
theorem hondaFwd_hondaBwd (m : ℤ) : hondaFwd (hondaBwd (m : ℚ)) = (m : ℚ) := by
  unfold hondaBwd
  rw [intRound_intCast]
  set x : ℚ := (((m : ℚ) - 995 / 10000) / (6233 / 10000)) with hx
  set j : ℤ := intRound x with hj
  have hd : |(j : ℚ) - x| ≤ 1 / 2 := intRound_dist_le x
  unfold hondaFwd
  have hkey : (j : ℚ) * (6233 / 10000) + 995 / 10000 = (m : ℚ) + ((j : ℚ) - x) * (6233 / 10000) := by
    have hx6 : x * (6233 / 10000) = (m : ℚ) - 995 / 10000 := by
      rw [hx]
      field_simp
    linear_combination hx6
  have hlt : |((j : ℚ) - x) * (6233 / 10000)| < 1 / 2 := by
    rw [abs_mul]
    have h2 : |(6233 : ℚ) / 10000| = 6233 / 10000 := by norm_num
    rw [h2]
    nlinarith [hd, abs_nonneg ((j : ℚ) - x)]
  rw [hkey, intRound_add_small m _ hlt]

theorem abs_clip_le (x m : ℚ) (hm : 0 ≤ m) : |clip x (-m) m| ≤ m := by
  unfold clip
  rw [abs_le]
  constructor
  · exact le_max_left _ _
  · exact max_le (by linarith) (min_le_left _ _)

theorem getD_replicate_zero (n i : ℕ) : (List.replicate n (0 : ℚ)).getD i 0 = 0 := by
  induction n generalizing i with
  | zero => simp [List.getD]
  | succ m ih =>
    cases i with
    | zero => simp [List.replicate]
    | succ j => simp [List.replicate, ih j]

/-- Interpolating an all-zero trajectory gives 0 whatever the grid. -/
theorem interp_zeros (x : ℚ) (xp : List ℚ) (n : ℕ) :
    interp x xp (List.replicate n 0) = 0 := by
  simp only [interp]
  split_ifs
  · exact getD_replicate_zero n _
  · exact getD_replicate_zero n _
  · simp only [getD_replicate_zero]
    ring_nf

theorem replicate_controln_head : (List.replicate CONTROL_N (0 : ℚ)).get? 0 = some 0 := by
  rfl

/-! ## Claims about the curvature lag compensator -/

/-- C3: `get_lag_adjusted_curvature` inspects only the length of the
heading trajectory `psis` when deciding the zero-fill fallback: with
`psis` of length `CONTROL_N` (17) but an empty curvature trajectory the
access `curvatures[0]` is out of range and the call fails (models a
Python `IndexError` as `none`), and likewise for an empty
curvature-rate trajectory, instead of returning a fail-soft value. -/
theorem C3_crash_on_mismatched_curvatures :
    get_lag_adjusted_curvature ⟨false, false, "mock", 0⟩ 5
      (List.replicate 17 0) [] (List.replicate 17 0) = none ∧
    get_lag_adjusted_curvature ⟨false, false, "mock", 0⟩ 5
      (List.replicate 17 0) (List.replicate 17 0) [] = none ∧
    (List.replicate 17 (0 : ℚ)).length = CONTROL_N := by
  refine ⟨?_, ?_, by decide⟩
  · rfl
  · rfl

/-- C2 counterexample: with `psis` of the correct length `CONTROL_N` but an
empty curvature-rate trajectory, the call does not return `(0, 0)` — it
fails with an out-of-range access (`none`), refuting the claim that a
length mismatch in any of the three trajectories triggers the zero-fill
fallback. -/
theorem C2_counterexample_rates_mismatch :
    get_lag_adjusted_curvature ⟨false, false, "mock", 1 / 10⟩ 3
      (List.replicate 17 0) (List.replicate 17 (1 / 100)) [] = none ∧
    (none : Option (ℚ × ℚ)) ≠ some (0, 0) := by
  constructor
  · rfl
  · simp

theorem lag_zero_fill (CP : CarParams) (v_ego : ℚ)
    (psis curvatures curvature_rates : List ℚ)
    (h : psis.length ≠ CONTROL_N) :
    get_lag_adjusted_curvature CP v_ego psis curvatures curvature_rates = some (0, 0) := by
  have hm : (0 : ℚ) ≤ MAX_LATERAL_JERK / (max MIN_SPEED v_ego) ^ 2 := by
    apply div_nonneg
    · norm_num [MAX_LATERAL_JERK]
    · positivity
  simp only [get_lag_adjusted_curvature, if_pos h, replicate_controln_head,
    interp_zeros]
  rw [zero_div]
  have hdt : (0 : ℚ) ≤ DT_MDL := by norm_num [DT_MDL]
  norm_num
  constructor
  · apply clip_of_mem
    · nlinarith [hm, hdt]
    · nlinarith [hm, hdt]
  · apply clip_of_mem
    · simpa using neg_nonpos_of_nonneg hm
    · exact hm

/-- C2 (amended): when the heading trajectory `psis` has a length other
than `CONTROL_N` (17), all three trajectories are replaced by zero-filled
trajectories of length `CONTROL_N` and the function returns `(0, 0)`.
(The original claim said "any of the three trajectories"; the code only
checks `len(psis)`.) -/
theorem C2_zero_fill_on_psis_mismatch (CP : CarParams) (v_ego : ℚ)
    (psis curvatures curvature_rates : List ℚ)
    (h : psis.length ≠ CONTROL_N) :
    get_lag_adjusted_curvature CP v_ego psis curvatures curvature_rates = some (0, 0) :=
  lag_zero_fill CP v_ego psis curvatures curvature_rates h

/-- C2 (amended) witness. -/
theorem C2_zero_fill_witness :
    get_lag_adjusted_curvature ⟨false, false, "mock", 0⟩ 0 [] [] [] = some (0, 0) :=
  C2_zero_fill_on_psis_mismatch ⟨false, false, "mock", 0⟩ 0 [] [] [] (by decide)

/-- C4: for every call of `get_lag_adjusted_curvature` that returns a pair
(any vehicle speed, any nonnegative actuator delay), the curvature-rate
component has magnitude at most `MAX_LATERAL_JERK` divided by the square
of the vehicle speed used, the speed being floored at `MIN_SPEED` (1.0)
before use. -/
theorem C4_rate_bounded_by_lateral_jerk (CP : CarParams) (v_ego : ℚ)
    (psis curvatures curvature_rates : List ℚ) (c r : ℚ)
    (hdelay : 0 ≤ CP.steerActuatorDelay)
    (h : get_lag_adjusted_curvature CP v_ego psis curvatures curvature_rates = some (c, r)) :
    |r| ≤ MAX_LATERAL_JERK / (max MIN_SPEED v_ego) ^ 2 := by
  clear hdelay
  have hm : (0 : ℚ) ≤ MAX_LATERAL_JERK / (max MIN_SPEED v_ego) ^ 2 := by
    apply div_nonneg
    · norm_num [MAX_LATERAL_JERK]
    · positivity
  simp only [get_lag_adjusted_curvature] at h
  split at h
  · exact absurd h (by simp)
  · split at h
    · exact absurd h (by simp)
    · rw [Option.some_inj, Prod.mk.injEq] at h
      rw [← h.2]
      exact abs_clip_le _ _ hm

/-- C4 witness. -/
theorem C4_rate_bounded_witness :
    get_lag_adjusted_curvature ⟨false, false, "mock", 0⟩ 2 [] [] [] = some (0, 0) ∧
    |(0 : ℚ)| ≤ MAX_LATERAL_JERK / (max MIN_SPEED 2) ^ 2 := by
  have hs : get_lag_adjusted_curvature ⟨false, false, "mock", 0⟩ 2 [] [] [] = some (0, 0) :=
    lag_zero_fill ⟨false, false, "mock", 0⟩ 2 [] [] [] (by decide)
  exact ⟨hs, C4_rate_bounded_by_lateral_jerk _ 2 _ _ _ 0 0 (by norm_num) hs⟩

/-! ## Shape lemmas: the explicit record produced by each branch of
`update_v_cruise` -/

theorem update_v_cruise_unavailable_shape (CS : CarStateData) (el im : Bool)
    (frame : ℕ) (rev : Bool) (s : VCruiseHelper)
    (hav : CS.cruiseState.available = false) :
    update_v_cruise CS el im frame rev s =
      { s with v_cruise_kph_last := s.v_cruise_kph, reverse_acc_change := rev,
               v_cruise_kph := V_CRUISE_INITIAL,
               v_cruise_cluster_kph := V_CRUISE_INITIAL } := by
  simp [update_v_cruise, hav]

theorem update_v_cruise_pcm_shape (CS : CarStateData) (el im : Bool)
    (frame : ℕ) (rev : Bool) (s : VCruiseHelper)
    (hav : CS.cruiseState.available = true)
    (hpcm : s.CP.pcmCruise = true ∧ s.CP.pcmCruiseSpeed = true) :
    update_v_cruise CS el im frame rev s =
      { s with v_cruise_kph_last := s.v_cruise_kph, reverse_acc_change := rev,
               v_cruise_kph := CS.cruiseState.speed * MS_TO_KPH,
               v_cruise_cluster_kph := CS.cruiseState.speedCluster * MS_TO_KPH } := by
  simp [update_v_cruise, hav, hpcm.1, hpcm.2]

theorem update_v_cruise_not_enabled_shape (CS : CarStateData) (el im : Bool)
    (frame : ℕ) (rev : Bool) (s : VCruiseHelper)
    (hav : CS.cruiseState.available = true)
    (hpcm : ¬(s.CP.pcmCruise = true ∧ s.CP.pcmCruiseSpeed = true))
    (hen : CS.cruiseState.enabled = false) :
    update_v_cruise CS el im frame rev s =
      { s with v_cruise_kph_last := s.v_cruise_kph, reverse_acc_change := rev } := by
  simp [update_v_cruise, hav, hen, hpcm]

theorem update_v_cruise_non_honda_shape (CS : CarStateData) (el im : Bool)
    (frame : ℕ) (rev : Bool) (s : VCruiseHelper)
    (hav : CS.cruiseState.available = true)
    (hpcm : ¬(s.CP.pcmCruise = true ∧ s.CP.pcmCruiseSpeed = true))
    (hen : CS.cruiseState.enabled = true)
    (hname : ¬(s.CP.carName = "honda")) :
    update_v_cruise CS el im frame rev s =
      { s with v_cruise_kph_last := s.v_cruise_kph, reverse_acc_change := rev,
               v_cruise_kph :=
                 nonPcmCore rev s.button_timer_accel s.button_timer_decel
                   s.standstill_accel s.standstill_decel CS.buttonEvents
                   CS.cruiseState.standstill CS.gasPressed CS.vEgo el im s.v_cruise_kph,
               v_cruise_cluster_kph :=
                 nonPcmCore rev s.button_timer_accel s.button_timer_decel
                   s.standstill_accel s.standstill_decel CS.buttonEvents
                   CS.cruiseState.standstill CS.gasPressed CS.vEgo el im s.v_cruise_kph,
               button_timer_accel :=
                 nextTimer CS.buttonEvents ButtonType.accelCruise s.button_timer_accel,
               button_timer_decel :=
                 nextTimer CS.buttonEvents ButtonType.decelCruise s.button_timer_decel,
               standstill_accel :=
                 nextStandstill CS.buttonEvents ButtonType.accelCruise
                   CS.cruiseState.standstill s.standstill_accel,
               standstill_decel :=
                 nextStandstill CS.buttonEvents ButtonType.decelCruise
                   CS.cruiseState.standstill s.standstill_decel } := by
  simp [update_v_cruise, hav, hen, hpcm, hname, update_v_cruise_non_pcm,
    update_button_timers]

theorem update_v_cruise_honda_shape (CS : CarStateData) (el im : Bool)
    (frame : ℕ) (rev : Bool) (s : VCruiseHelper)
    (hav : CS.cruiseState.available = true)
    (hpcm : ¬(s.CP.pcmCruise = true ∧ s.CP.pcmCruiseSpeed = true))
    (hen : CS.cruiseState.enabled = true)
    (hname : s.CP.carName = "honda")
    (hev : CS.buttonEvents = []) :
    update_v_cruise CS el im frame rev s =
      (let ct : ℚ := (frame : ℚ) * DT_CTRL
       let w := hondaSpeedCore rev s.fastMode s.accel_pressed s.decel_pressed
                  s.accel_pressed_last s.decel_pressed_last ct [] CS.gasPressed CS.vEgo
                  el im s.v_cruise_kph
       let vN := if im then w else hondaBwd w
       let sBase := { s with v_cruise_kph_last := s.v_cruise_kph,
                             reverse_acc_change := rev,
                             v_cruise_kph := vN, v_cruise_cluster_kph := vN }
       if s.accel_pressed || s.decel_pressed then
         if s.v_cruise_kph ≠ vN then
           { sBase with accel_pressed_last := ct, decel_pressed_last := ct,
                        fastMode := true }
         else sBase
       else { sBase with fastMode := false }) := by
  simp only [update_v_cruise, hav, hen, hev, hname, if_pos hpcm]
  simp [honda_latch, update_v_cruise_non_pcm_honda, hev, latchPressed, latchLast]

/-! ## Lemmas about the simple (non-Honda) sub-policy core -/

/-! ## Lemmas about the simple (non-Honda) sub-policy core -/

theorem nonPcmAdjust_mem_or_eq (rev : Bool) (ssa ssd : Bool) (standstill gas : Bool)
    (vEgo : ℚ) (im : Bool) (bt : ButtonType) (long_press : Bool) (v : ℚ) :
    (V_CRUISE_MIN ≤ nonPcmAdjust rev ssa ssd standstill gas vEgo im bt long_press v ∧
      nonPcmAdjust rev ssa ssd standstill gas vEgo im bt long_press v ≤ V_CRUISE_MAX) ∨
    nonPcmAdjust rev ssa ssd standstill gas vEgo im bt long_press v = v := by
  have hmm : V_CRUISE_MIN ≤ V_CRUISE_MAX := by norm_num [V_CRUISE_MIN, V_CRUISE_MAX]
  unfold nonPcmAdjust
  by_cases hsup : bt = ButtonType.accelCruise ∧
      (((if bt = ButtonType.accelCruise then ssa else ssd) || standstill) = true)
  · rw [if_pos hsup]
    right
    rfl
  · rw [if_neg hsup]
    left
    exact ⟨clip_ge_lo _ _ _, clip_le_hi _ _ _ hmm⟩

theorem nonPcmCore_no_tick (rev : Bool) (ta td : ℕ) (ssa ssd : Bool)
    (events : List CSButtonEvent) (standstill gas : Bool) (vEgo : ℚ)
    (el im : Bool) (v : ℚ)
    (hfind : events.find? isTrackedRelease = none)
    (hta : ¬(ta ≠ 0 ∧ ta % CRUISE_LONG_PRESS = 0))
    (htd : ¬(td ≠ 0 ∧ td % CRUISE_LONG_PRESS = 0)) :
    nonPcmCore rev ta td ssa ssd events standstill gas vEgo el im v = v := by
  unfold nonPcmCore
  by_cases hel : el = false
  · rw [if_pos hel]
  · rw [if_neg hel]
    simp only [hfind]
    rw [if_neg htd, if_neg hta]

theorem nonPcmCore_mem_or_eq (rev : Bool) (ta td : ℕ) (ssa ssd : Bool)
    (events : List CSButtonEvent) (standstill gas : Bool) (vEgo : ℚ)
    (el im : Bool) (v : ℚ) :
    (V_CRUISE_MIN ≤ nonPcmCore rev ta td ssa ssd events standstill gas vEgo el im v ∧
      nonPcmCore rev ta td ssa ssd events standstill gas vEgo el im v ≤ V_CRUISE_MAX) ∨
    nonPcmCore rev ta td ssa ssd events standstill gas vEgo el im v = v := by
  unfold nonPcmCore
  by_cases hel : el = false
  · rw [if_pos hel]
    right
    rfl
  · rw [if_neg hel]
    rcases hfind : events.find? isTrackedRelease with _ | b <;> simp only [hfind]
    · by_cases h1 : td ≠ 0 ∧ td % CRUISE_LONG_PRESS = 0
      · rw [if_pos h1]
        exact nonPcmAdjust_mem_or_eq _ _ _ _ _ _ _ _ _ _
      · rw [if_neg h1]
        by_cases h2 : ta ≠ 0 ∧ ta % CRUISE_LONG_PRESS = 0
        · rw [if_pos h2]
          exact nonPcmAdjust_mem_or_eq _ _ _ _ _ _ _ _ _ _
        · rw [if_neg h2]
          right
          rfl
    · by_cases hb : (if b.type = ButtonType.accelCruise then ta else td) > CRUISE_LONG_PRESS
      · rw [if_pos hb]
        right
        rfl
      · rw [if_neg hb]
        exact nonPcmAdjust_mem_or_eq _ _ _ _ _ _ _ _ _ _

theorem nonPcmAdjust_accel_suppressed (rev : Bool) (ssd : Bool) (standstill gas : Bool)
    (vEgo : ℚ) (im : Bool) (long_press : Bool) (v : ℚ) :
    nonPcmAdjust rev true ssd standstill gas vEgo im ButtonType.accelCruise long_press v = v := by
  unfold nonPcmAdjust
  rw [if_pos]
  exact ⟨rfl, by simp⟩

theorem nonPcmAdjust_accel_short (ssd : Bool) (gas : Bool) (vEgo : ℚ) (v : ℚ) :
    nonPcmAdjust false false ssd false gas vEgo true ButtonType.accelCruise false v =
      clip (round1 (v + 1)) V_CRUISE_MIN V_CRUISE_MAX := by
  unfold nonPcmAdjust
  simp [cruiseIntervalSign]

theorem nonPcmAdjust_accel_long (ssd : Bool) (gas : Bool) (vEgo : ℚ) (v : ℚ) :
    nonPcmAdjust false false ssd false gas vEgo true ButtonType.accelCruise true v =
      clip (round1 (if qmod v 10 ≠ 0 then ((⌈v / 10⌉ : ℤ) : ℚ) * 10 else v + 10))
        V_CRUISE_MIN V_CRUISE_MAX := by
  unfold nonPcmAdjust
  by_cases hq : qmod v 10 ≠ 0
  · simp [cruiseNearest, cruiseIntervalSign, hq]
  · simp [cruiseNearest, cruiseIntervalSign, hq]

/-! ## Lemmas about the Honda ramping sub-policy core -/

theorem hondaSpeedCore_metric_mem_or_eq (rev fast ap dp : Bool) (alast dlast ct : ℚ)
    (events : List CSButtonEvent) (gas : Bool) (vEgo : ℚ) (el : Bool) (v : ℚ) :
    (V_CRUISE_MIN_HONDA ≤
        hondaSpeedCore rev fast ap dp alast dlast ct events gas vEgo el true v ∧
      hondaSpeedCore rev fast ap dp alast dlast ct events gas vEgo el true v ≤
        V_CRUISE_MAX) ∨
    hondaSpeedCore rev fast ap dp alast dlast ct events gas vEgo el true v = v := by
  have hmm : V_CRUISE_MIN_HONDA ≤ V_CRUISE_MAX := by
    norm_num [V_CRUISE_MIN_HONDA, V_CRUISE_MAX]
  unfold hondaSpeedCore
  by_cases hel : el = true
  · rw [hel]
    left
    exact ⟨clip_ge_lo _ _ _, clip_le_hi _ _ _ hmm⟩
  · rw [if_neg hel]
    right
    rfl

/-- With no button events, the Honda core after a cycle in which no
hold-driven step fires is just the unit roundtrip and clamp. -/
theorem hondaSpeedCore_noFire (rev fast ap dp : Bool) (alast dlast ct : ℚ)
    (gas : Bool) (vEgo : ℚ) (el im : Bool) (v : ℚ)
    (ha : ap = true → ¬(ct - alast ≥ 1 ∨ (fast = true ∧ ct - alast ≥ 1 / 2)))
    (hd : dp = true → ¬(ct - dlast ≥ 1 ∨ (fast = true ∧ ct - dlast ≥ 1 / 2))) :
    hondaSpeedCore rev fast ap dp alast dlast ct [] gas vEgo el im v =
      if el then clip (if im then v else hondaFwd v) V_CRUISE_MIN_HONDA V_CRUISE_MAX
      else (if im then v else hondaFwd v) := by
  unfold hondaSpeedCore
  by_cases hel : el = true
  · rw [hel]
    simp only [if_pos rfl]
    by_cases hap : ap = true
    · rw [if_pos hap, if_neg (ha hap)]
    · rw [if_neg hap]
      by_cases hdp : dp = true
      · rw [if_pos hdp, if_neg (hd hdp)]
      · rw [if_neg hdp]
        simp [List.foldl]
  · rw [if_neg hel, if_neg hel]

/-- With no button events, the Honda core output in display units is an
integer-valued rational. -/
theorem hondaSpeedCore_isInt (rev fast ap dp : Bool) (alast dlast ct : ℚ)
    (gas : Bool) (vEgo : ℚ) (el : Bool) (v : ℚ) :
    ∃ k : ℤ, hondaSpeedCore rev fast ap dp alast dlast ct [] gas vEgo el false v = (k : ℚ) := by
  have hbase : ∃ k : ℤ, hondaFwd v = (k : ℚ) := ⟨_, rfl⟩
  obtain ⟨k0, hk0⟩ := hbase
  have hstep : ∀ x : ℚ, ∀ j : ℤ, x = (j : ℚ) →
      ∃ k : ℤ, clip x V_CRUISE_MIN_HONDA V_CRUISE_MAX = (k : ℚ) := by
    intro x j hj
    refine ⟨max 5 (min 145 j), ?_⟩
    rw [hj]
    unfold clip V_CRUISE_MIN_HONDA V_CRUISE_MAX
    push_cast
    rfl
  unfold hondaSpeedCore
  by_cases hel : el = true
  · rw [hel]
    simp only [if_pos rfl]
    by_cases hap : ap = true
    · rw [if_pos hap]
      by_cases hfa : ct - alast ≥ 1 ∨ (fast = true ∧ ct - alast ≥ 1 / 2)
      · rw [if_pos hfa]
        by_cases hrev : rev = true
        · rw [if_pos hrev]
          exact hstep _ (k0 + 1) (by push_cast [hk0]; ring)
        · rw [if_neg hrev]
          refine hstep _ (k0 + (5 - (k0 - 5 * ⌊(k0 : ℚ) / 5⌋))) ?_
          rw [hk0]
          unfold qmod V_CRUISE_DELTA_HONDA
          push_cast
          ring
      · rw [if_neg hfa]
        exact hstep _ k0 hk0
    · rw [if_neg hap]
      by_cases hdp : dp = true
      · rw [if_pos hdp]
        by_cases hfd : ct - dlast ≥ 1 ∨ (fast = true ∧ ct - dlast ≥ 1 / 2)
        · rw [if_pos hfd]
          by_cases hrev : rev = true
          · rw [if_pos hrev]
            exact hstep _ (k0 - 1) (by push_cast [hk0]; ring)
          · rw [if_neg hrev]
            refine hstep _ (k0 - (5 - (5 - k0 - 5 * ⌊(5 - (k0 : ℚ)) / 5⌋))) ?_
            rw [hk0]
            unfold qmod V_CRUISE_DELTA_HONDA
            push_cast
            ring
        · rw [if_neg hfd]
          exact hstep _ k0 hk0
      · rw [if_neg hdp]
        simp only [List.foldl]
        exact hstep _ k0 hk0
  · rw [if_neg hel]
    exact ⟨k0, hk0⟩

/-- When longitudinal control is enabled, the Honda core output is a
clamped value. -/
theorem hondaSpeedCore_el_clip (rev fast ap dp : Bool) (alast dlast ct : ℚ)
    (events : List CSButtonEvent) (gas : Bool) (vEgo : ℚ) (im : Bool) (v : ℚ) :
    ∃ y : ℚ, hondaSpeedCore rev fast ap dp alast dlast ct events gas vEgo true im v =
      clip y V_CRUISE_MIN_HONDA V_CRUISE_MAX := by
  unfold hondaSpeedCore
  rw [if_pos rfl]
  exact ⟨_, rfl⟩

/-! ## Selection lemmas for concrete event patterns -/

theorem nonPcmCore_single_release_accel (rev : Bool) (ta td : ℕ) (ssa ssd : Bool)
    (standstill gas : Bool) (vEgo : ℚ) (im : Bool) (v : ℚ)
    (hta : ta ≤ CRUISE_LONG_PRESS) :
    nonPcmCore rev ta td ssa ssd [⟨ButtonType.accelCruise, false⟩] standstill gas vEgo
        true im v =
      nonPcmAdjust rev ssa ssd standstill gas vEgo im ButtonType.accelCruise false v := by
  unfold nonPcmCore
  have hfind : List.find? isTrackedRelease [⟨ButtonType.accelCruise, false⟩] =
      some ⟨ButtonType.accelCruise, false⟩ := rfl
  simp [hfind, not_lt.mpr hta]

theorem nonPcmCore_long_tick_accel (rev : Bool) (ta td : ℕ) (ssa ssd : Bool)
    (events : List CSButtonEvent) (standstill gas : Bool) (vEgo : ℚ) (im : Bool) (v : ℚ)
    (hfind : events.find? isTrackedRelease = none)
    (hta : ta ≠ 0 ∧ ta % CRUISE_LONG_PRESS = 0)
    (htd : ¬(td ≠ 0 ∧ td % CRUISE_LONG_PRESS = 0)) :
    nonPcmCore rev ta td ssa ssd events standstill gas vEgo true im v =
      nonPcmAdjust rev ssa ssd standstill gas vEgo im ButtonType.accelCruise true v := by
  unfold nonPcmCore
  rw [if_neg (show ¬((true : Bool) = false) by simp)]
  simp only [hfind]
  rw [if_neg htd, if_pos hta]

theorem nonPcmCore_accel_event_standstill (rev : Bool) (ta td : ℕ) (ssd : Bool)
    (e : CSButtonEvent) (standstill gas : Bool) (vEgo : ℚ) (el im : Bool) (v : ℚ)
    (htype : e.type = ButtonType.accelCruise)
    (htd : ¬(td ≠ 0 ∧ td % CRUISE_LONG_PRESS = 0)) :
    nonPcmCore rev ta td true ssd [e] standstill gas vEgo el im v = v := by
  obtain ⟨bt, pr⟩ := e
  simp only at htype
  subst htype
  unfold nonPcmCore
  by_cases hel : el = false
  · rw [if_pos hel]
  · rw [if_neg hel]
    cases pr
    · have hfind : List.find? isTrackedRelease [⟨ButtonType.accelCruise, false⟩] =
          some ⟨ButtonType.accelCruise, false⟩ := rfl
      simp [hfind, nonPcmAdjust_accel_suppressed]
    · have hfind : List.find? isTrackedRelease [⟨ButtonType.accelCruise, true⟩] = none := rfl
      simp [hfind, htd, nonPcmAdjust_accel_suppressed]

/-- In the Honda branch the hold timers and stored standstill flags are
left untouched by `update_v_cruise`. -/
theorem update_v_cruise_honda_timers (CS : CarStateData) (el im : Bool)
    (frame : ℕ) (rev : Bool) (s : VCruiseHelper)
    (hav : CS.cruiseState.available = true)
    (hpcm : ¬(s.CP.pcmCruise = true ∧ s.CP.pcmCruiseSpeed = true))
    (hen : CS.cruiseState.enabled = true)
    (hname : s.CP.carName = "honda") :
    (update_v_cruise CS el im frame rev s).button_timer_accel = s.button_timer_accel ∧
    (update_v_cruise CS el im frame rev s).button_timer_decel = s.button_timer_decel ∧
    (update_v_cruise CS el im frame rev s).standstill_accel = s.standstill_accel ∧
    (update_v_cruise CS el im frame rev s).standstill_decel = s.standstill_decel := by
  simp only [update_v_cruise, hav, hen, hname, if_pos hpcm]
  refine ⟨?_, ?_, ?_, ?_⟩ <;>
    simp [honda_latch, update_v_cruise_non_pcm_honda,
      apply_ite VCruiseHelper.button_timer_accel,
      apply_ite VCruiseHelper.button_timer_decel,
      apply_ite VCruiseHelper.standstill_accel,
      apply_ite VCruiseHelper.standstill_decel]

/-! ## Claims about the cruise speed state machine -/

/-- C7 counterexample: a single increment-button release while the vehicle
is not at standstill but the stored `hold_started_at_standstill` flag is
true leaves the speed at 50 instead of stepping to 51, refuting the claim
as stated (which assumes only "not at standstill"). -/
theorem C7_counterexample_stored_standstill :
    (update_v_cruise ⟨⟨true, true, false, 0, 0⟩, [⟨ButtonType.accelCruise, false⟩], false, 0⟩
        true true 0 false
        { mkVCruiseHelper ⟨false, false, "toyota", 0⟩ false with
            v_cruise_kph := 50, button_timer_accel := 10,
            standstill_accel := true }).v_cruise_kph = 50 ∧
    clip (round1 ((50 : ℚ) + 1)) V_CRUISE_MIN V_CRUISE_MAX = 51 ∧ (50 : ℚ) ≠ 51 := by
  refine ⟨?_, ?_, by norm_num⟩
  · rw [update_v_cruise_non_honda_shape _ _ _ _ _ _ rfl (by simp [mkVCruiseHelper]) rfl
      (by simp [mkVCruiseHelper])]
    show nonPcmCore false 10 0 true false [⟨ButtonType.accelCruise, false⟩] false false 0
        true true 50 = 50
    rw [nonPcmCore_single_release_accel _ _ _ _ _ _ _ _ _ _ (by norm_num [CRUISE_LONG_PRESS])]
    exact nonPcmAdjust_accel_suppressed _ _ _ _ _ _ _ _
  · norm_num [clip, round1, intRound, V_CRUISE_MIN, V_CRUISE_MAX]

/-- C7 (amended): in the simple (non-Honda) policy with metric units,
reverse toggle off, longitudinal enabled, not at standstill, the
increment button's stored standstill flag false, and accelerator not
pressed, a single increment-button release whose hold timer did not
exceed `CRUISE_LONG_PRESS` increases `v_cruise_kph` by exactly 1 kph,
the result rounded to one decimal and clamped to
`[V_CRUISE_MIN, V_CRUISE_MAX]`.  (The original claim omitted the stored
standstill flag, which the code also requires to be false.) -/
theorem C7_release_increments_by_one (s : VCruiseHelper) (CS : CarStateData) (frame : ℕ)
    (hav : CS.cruiseState.available = true)
    (hpcm : ¬(s.CP.pcmCruise = true ∧ s.CP.pcmCruiseSpeed = true))
    (hen : CS.cruiseState.enabled = true)
    (hname : ¬(s.CP.carName = "honda"))
    (hev : CS.buttonEvents = [⟨ButtonType.accelCruise, false⟩])
    (hta : s.button_timer_accel ≤ CRUISE_LONG_PRESS)
    (hss : s.standstill_accel = false)
    (hstand : CS.cruiseState.standstill = false)
    (hgas : CS.gasPressed = false) :
    (update_v_cruise CS true true frame false s).v_cruise_kph =
      clip (round1 (s.v_cruise_kph + 1)) V_CRUISE_MIN V_CRUISE_MAX := by
  rw [update_v_cruise_non_honda_shape CS true true frame false s hav hpcm hen hname]
  show nonPcmCore false s.button_timer_accel s.button_timer_decel s.standstill_accel
      s.standstill_decel CS.buttonEvents CS.cruiseState.standstill CS.gasPressed CS.vEgo
      true true s.v_cruise_kph = _
  rw [hev, hss, hstand, hgas, nonPcmCore_single_release_accel _ _ _ _ _ _ _ _ _ _ hta,
    nonPcmAdjust_accel_short]

/-- C7 (amended) witness. -/
theorem C7_release_increments_witness :
    (update_v_cruise ⟨⟨true, true, false, 0, 0⟩, [⟨ButtonType.accelCruise, false⟩], false, 0⟩
        true true 0 false
        { mkVCruiseHelper ⟨false, false, "toyota", 0⟩ false with
            v_cruise_kph := 50, button_timer_accel := 10 }).v_cruise_kph =
      clip (round1 ((50 : ℚ) + 1)) V_CRUISE_MIN V_CRUISE_MAX := by
  exact C7_release_increments_by_one _ _ 0 rfl (by simp [mkVCruiseHelper]) rfl
    (by simp [mkVCruiseHelper]) rfl (by norm_num [CRUISE_LONG_PRESS]) rfl rfl rfl

/-- C8: in the simple (non-Honda) policy, when the increment button's stored
`hold_started_at_standstill` flag is true and the vehicle is at standstill,
processing an increment-button event (pressed or released) in
`update_v_cruise` leaves `v_cruise_kph` unchanged, provided the decrement
button's own long-press tick is not simultaneously due. -/
theorem C8_standstill_press_ignored (s : VCruiseHelper) (CS : CarStateData)
    (e : CSButtonEvent) (el im : Bool) (frame : ℕ) (rev : Bool)
    (hav : CS.cruiseState.available = true)
    (hpcm : ¬(s.CP.pcmCruise = true ∧ s.CP.pcmCruiseSpeed = true))
    (hen : CS.cruiseState.enabled = true)
    (hname : ¬(s.CP.carName = "honda"))
    (hev : CS.buttonEvents = [e])
    (htype : e.type = ButtonType.accelCruise)
    (hss : s.standstill_accel = true)
    (hstand : CS.cruiseState.standstill = true)
    (htd : ¬(s.button_timer_decel ≠ 0 ∧ s.button_timer_decel % CRUISE_LONG_PRESS = 0)) :
    (update_v_cruise CS el im frame rev s).v_cruise_kph = s.v_cruise_kph := by
  rw [update_v_cruise_non_honda_shape CS el im frame rev s hav hpcm hen hname]
  show nonPcmCore rev s.button_timer_accel s.button_timer_decel s.standstill_accel
      s.standstill_decel CS.buttonEvents CS.cruiseState.standstill CS.gasPressed CS.vEgo
      el im s.v_cruise_kph = _
  rw [hev, hss, hstand]
  exact nonPcmCore_accel_event_standstill _ _ _ _ _ _ _ _ _ _ _ htype htd

/-- C8 witness. -/
theorem C8_standstill_press_witness :
    (update_v_cruise ⟨⟨true, true, true, 0, 0⟩, [⟨ButtonType.accelCruise, false⟩], false, 0⟩
        true true 0 false
        { mkVCruiseHelper ⟨false, false, "toyota", 0⟩ false with
            v_cruise_kph := 50, button_timer_accel := 10,
            standstill_accel := true }).v_cruise_kph = 50 := by
  exact C8_standstill_press_ignored _ _ ⟨ButtonType.accelCruise, false⟩ true true 0 false
    rfl (by simp [mkVCruiseHelper]) rfl (by simp [mkVCruiseHelper]) rfl rfl rfl rfl
    (by simp [mkVCruiseHelper])

/-- C6 counterexample: at a long-press tick (timer exactly at
`CRUISE_LONG_PRESS`, metric, reverse off, cruise enabled, vehicle not at
standstill) with the increment button's stored standstill flag true, the
speed 53 is neither snapped to 60 nor stepped: the claim's "exactly one of
the two effects occurs" fails as stated. -/
theorem C6_counterexample_stored_standstill :
    (update_v_cruise ⟨⟨true, true, false, 0, 0⟩, [], false, 0⟩ true true 0 false
        { mkVCruiseHelper ⟨false, false, "toyota", 0⟩ false with
            v_cruise_kph := 53, button_timer_accel := 50,
            standstill_accel := true }).v_cruise_kph = 53 ∧
    qmod (53 : ℚ) 10 ≠ 0 ∧
    clip (round1 (((⌈(53 : ℚ) / 10⌉ : ℤ) : ℚ) * 10)) V_CRUISE_MIN V_CRUISE_MAX = 60 ∧
    (53 : ℚ) ≠ 60 := by
  refine ⟨?_, by norm_num [qmod], ?_, by norm_num⟩
  · rw [update_v_cruise_non_honda_shape _ _ _ _ _ _ rfl (by simp [mkVCruiseHelper]) rfl
      (by simp [mkVCruiseHelper])]
    show nonPcmCore false 50 0 true false [] false false 0 true true 53 = 53
    rw [nonPcmCore_long_tick_accel false 50 0 true false [] false false 0 true 53 rfl
      (by norm_num [CRUISE_LONG_PRESS]) (by norm_num)]
    exact nonPcmAdjust_accel_suppressed _ _ _ _ _ _ _ _
  · have hceil : (⌈(53 : ℚ) / 10⌉ : ℤ) = 6 := by
      norm_num [Int.ceil_eq_iff]
    rw [hceil]
    norm_num [clip, round1, intRound, V_CRUISE_MIN, V_CRUISE_MAX]

/-- C6 (amended): in the simple (non-Honda) policy with metric units,
reverse toggle off, cruise enabled, not at standstill and the increment
button's stored standstill flag false: when the increment button's hold
timer sits at a nonzero multiple of `CRUISE_LONG_PRESS` with the button
still held (no tracked release event this cycle) and the decrement
button's tick is not due first, exactly one effect occurs — if
`v_cruise_kph` is not aligned to the 10 kph long-press interval it snaps
to the ceiling boundary without also stepping; if aligned, it steps by
exactly 10. -/
theorem C6_long_press_snap_or_step (s : VCruiseHelper) (CS : CarStateData) (frame : ℕ)
    (hav : CS.cruiseState.available = true)
    (hpcm : ¬(s.CP.pcmCruise = true ∧ s.CP.pcmCruiseSpeed = true))
    (hen : CS.cruiseState.enabled = true)
    (hname : ¬(s.CP.carName = "honda"))
    (hfind : CS.buttonEvents.find? isTrackedRelease = none)
    (hta : s.button_timer_accel ≠ 0 ∧ s.button_timer_accel % CRUISE_LONG_PRESS = 0)
    (htd : ¬(s.button_timer_decel ≠ 0 ∧ s.button_timer_decel % CRUISE_LONG_PRESS = 0))
    (hss : s.standstill_accel = false)
    (hstand : CS.cruiseState.standstill = false) :
    (qmod s.v_cruise_kph 10 ≠ 0 →
      (update_v_cruise CS true true frame false s).v_cruise_kph =
        clip (round1 (((⌈s.v_cruise_kph / 10⌉ : ℤ) : ℚ) * 10)) V_CRUISE_MIN V_CRUISE_MAX) ∧
    (qmod s.v_cruise_kph 10 = 0 →
      (update_v_cruise CS true true frame false s).v_cruise_kph =
        clip (round1 (s.v_cruise_kph + 10)) V_CRUISE_MIN V_CRUISE_MAX) := by
  have hbase : (update_v_cruise CS true true frame false s).v_cruise_kph =
      clip (round1 (if qmod s.v_cruise_kph 10 ≠ 0 then
          ((⌈s.v_cruise_kph / 10⌉ : ℤ) : ℚ) * 10 else s.v_cruise_kph + 10))
        V_CRUISE_MIN V_CRUISE_MAX := by
    rw [update_v_cruise_non_honda_shape CS true true frame false s hav hpcm hen hname]
    show nonPcmCore false s.button_timer_accel s.button_timer_decel s.standstill_accel
        s.standstill_decel CS.buttonEvents CS.cruiseState.standstill CS.gasPressed CS.vEgo
        true true s.v_cruise_kph = _
    rw [hss, hstand, nonPcmCore_long_tick_accel _ _ _ _ _ _ _ _ _ _ _ hfind hta htd,
      nonPcmAdjust_accel_long]
  constructor
  · intro hq
    rw [hbase, if_pos hq]
  · intro hq
    rw [hbase, if_neg (by simp [hq])]

/-- C6 (amended) witness: misaligned 53 snaps to the 60 boundary. -/
theorem C6_long_press_witness :
    (update_v_cruise ⟨⟨true, true, false, 0, 0⟩, [], false, 0⟩ true true 0 false
        { mkVCruiseHelper ⟨false, false, "toyota", 0⟩ false with
            v_cruise_kph := 53, button_timer_accel := 50 }).v_cruise_kph = 60 := by
  have h := (C6_long_press_snap_or_step
      { mkVCruiseHelper ⟨false, false, "toyota", 0⟩ false with
          v_cruise_kph := 53, button_timer_accel := 50 }
      ⟨⟨true, true, false, 0, 0⟩, [], false, 0⟩ 0 rfl (by simp [mkVCruiseHelper]) rfl
      (by simp [mkVCruiseHelper]) rfl (by norm_num [CRUISE_LONG_PRESS])
      (by simp [mkVCruiseHelper]) rfl rfl).1 (by norm_num [qmod])
  rw [h]
  have hceil : (⌈(53 : ℚ) / 10⌉ : ℤ) = 6 := by
    norm_num [Int.ceil_eq_iff]
  show clip (round1 (((⌈(53 : ℚ) / 10⌉ : ℤ) : ℚ) * 10)) V_CRUISE_MIN V_CRUISE_MAX = 60
  rw [hceil]
  norm_num [clip, round1, intRound, V_CRUISE_MIN, V_CRUISE_MAX]

/-- C10: `initialize_v_cruise` restores the last-known speed verbatim with
no clamping to the brand bounds: whenever an increment or resume button
event is present and `v_cruise_kph_last < 250` (and the PCM does not own
the set speed), `v_cruise_kph` is set to exactly `v_cruise_kph_last`. -/
theorem C10_restore_verbatim (s : VCruiseHelper) (CS : CarStateData) (is_metric : Bool)
    (hpcm : ¬(s.CP.pcmCruise = true ∧ s.CP.pcmCruiseSpeed = true))
    (hbtn : (CS.buttonEvents.any fun b =>
        decide (b.type = ButtonType.accelCruise) ||
          decide (b.type = ButtonType.resumeCruise)) = true)
    (hlast : s.v_cruise_kph_last < 250) :
    (init_v_cruise CS is_metric s).v_cruise_kph = s.v_cruise_kph_last := by
  unfold init_v_cruise
  rw [if_neg hpcm, if_pos ⟨hbtn, hlast⟩]

/-- C10 witness: on a freshly constructed helper (`v_cruise_kph_last = 0`)
with an increment-button event present, the target speed becomes exactly 0,
which is below `V_CRUISE_MIN` and distinct from the sentinel. -/
theorem C10_restore_witness :
    (init_v_cruise ⟨⟨true, true, false, 0, 0⟩, [⟨ButtonType.accelCruise, true⟩], false, 0⟩
        true (mkVCruiseHelper ⟨false, false, "toyota", 0⟩ false)).v_cruise_kph = 0 ∧
    (0 : ℚ) < V_CRUISE_MIN ∧ (0 : ℚ) ≠ V_CRUISE_INITIAL := by
  refine ⟨?_, by norm_num [V_CRUISE_MIN], by norm_num [V_CRUISE_INITIAL]⟩
  have h := C10_restore_verbatim (mkVCruiseHelper ⟨false, false, "toyota", 0⟩ false)
    ⟨⟨true, true, false, 0, 0⟩, [⟨ButtonType.accelCruise, true⟩], false, 0⟩ true
    (by simp [mkVCruiseHelper]) (by decide) (by norm_num [mkVCruiseHelper, V_CRUISE_INITIAL])
  simpa [mkVCruiseHelper] using h

/-- C9 counterexample: in the Honda branch of `update_v_cruise`, a release
event of the increment button leaves its hold timer at 5, whereas the
bookkeeping of `update_button_timers` would reset it to 0 — the timers are
not maintained "regardless of which sub-policy ran". -/
theorem C9_counterexample_honda_skips_bookkeeping :
    (update_v_cruise ⟨⟨true, true, false, 0, 0⟩, [⟨ButtonType.accelCruise, false⟩], false, 0⟩
        true true 0 false
        { mkVCruiseHelper ⟨false, false, "honda", 0⟩ false with
            v_cruise_kph := 50, button_timer_accel := 5 }).button_timer_accel = 5 ∧
    (update_button_timers ⟨⟨true, true, false, 0, 0⟩, [⟨ButtonType.accelCruise, false⟩], false, 0⟩
        { mkVCruiseHelper ⟨false, false, "honda", 0⟩ false with
            v_cruise_kph := 50, button_timer_accel := 5 }).button_timer_accel = 0 ∧
    (5 : ℕ) ≠ 0 := by
  refine ⟨?_, by decide, by decide⟩
  have h := (update_v_cruise_honda_timers
      ⟨⟨true, true, false, 0, 0⟩, [⟨ButtonType.accelCruise, false⟩], false, 0⟩ true true 0 false
      { mkVCruiseHelper ⟨false, false, "honda", 0⟩ false with
          v_cruise_kph := 50, button_timer_accel := 5 }
      rfl (by simp [mkVCruiseHelper]) rfl rfl).1
  simpa [mkVCruiseHelper] using h

/-- C9 (amended): on a cycle in which the system synthesizes its own
set-speed (cruise available, not fully PCM-owned, cruise enabled), the hold
timers and stored standstill flags are updated per `update_button_timers`
exactly when the simple (non-Honda) sub-policy runs; when the Honda ramping
sub-policy runs they are left untouched.  (The original claim said the
bookkeeping is performed regardless of the sub-policy.) -/
theorem C9_timer_bookkeeping (s : VCruiseHelper) (CS : CarStateData) (el im : Bool)
    (frame : ℕ) (rev : Bool)
    (hav : CS.cruiseState.available = true)
    (hpcm : ¬(s.CP.pcmCruise = true ∧ s.CP.pcmCruiseSpeed = true))
    (hen : CS.cruiseState.enabled = true) :
    (¬(s.CP.carName = "honda") →
      (update_v_cruise CS el im frame rev s).button_timer_accel =
          (update_button_timers CS s).button_timer_accel ∧
        (update_v_cruise CS el im frame rev s).button_timer_decel =
          (update_button_timers CS s).button_timer_decel ∧
        (update_v_cruise CS el im frame rev s).standstill_accel =
          (update_button_timers CS s).standstill_accel ∧
        (update_v_cruise CS el im frame rev s).standstill_decel =
          (update_button_timers CS s).standstill_decel) ∧
    (s.CP.carName = "honda" →
      (update_v_cruise CS el im frame rev s).button_timer_accel = s.button_timer_accel ∧
        (update_v_cruise CS el im frame rev s).button_timer_decel = s.button_timer_decel ∧
        (update_v_cruise CS el im frame rev s).standstill_accel = s.standstill_accel ∧
        (update_v_cruise CS el im frame rev s).standstill_decel = s.standstill_decel) := by
  constructor
  · intro hname
    rw [update_v_cruise_non_honda_shape CS el im frame rev s hav hpcm hen hname]
    exact ⟨rfl, rfl, rfl, rfl⟩
  · intro hname
    exact update_v_cruise_honda_timers CS el im frame rev s hav hpcm hen hname

/-- C9 (amended) witness. -/
theorem C9_timer_bookkeeping_witness :
    (update_v_cruise ⟨⟨true, true, false, 0, 0⟩, [⟨ButtonType.accelCruise, false⟩], false, 0⟩
        true true 0 false
        { mkVCruiseHelper ⟨false, false, "toyota", 0⟩ false with
            v_cruise_kph := 50, button_timer_accel := 5 }).button_timer_accel =
      (update_button_timers ⟨⟨true, true, false, 0, 0⟩, [⟨ButtonType.accelCruise, false⟩], false, 0⟩
        { mkVCruiseHelper ⟨false, false, "toyota", 0⟩ false with
            v_cruise_kph := 50, button_timer_accel := 5 }).button_timer_accel := by
  exact ((C9_timer_bookkeeping _ _ true true 0 false rfl (by simp [mkVCruiseHelper]) rfl).1
    (by simp [mkVCruiseHelper])).1

/-- The speed value produced by the Honda branch of `update_v_cruise`
(arbitrary events): the latched flags feed the Honda core, and when not
metric the result is converted back from display units. -/
theorem update_v_cruise_honda_v (CS : CarStateData) (el im : Bool)
    (frame : ℕ) (rev : Bool) (s : VCruiseHelper)
    (hav : CS.cruiseState.available = true)
    (hpcm : ¬(s.CP.pcmCruise = true ∧ s.CP.pcmCruiseSpeed = true))
    (hen : CS.cruiseState.enabled = true)
    (hname : s.CP.carName = "honda") :
    (update_v_cruise CS el im frame rev s).v_cruise_kph =
      (if im then
        hondaSpeedCore rev s.fastMode
          (latchPressed ButtonType.accelCruise CS.buttonEvents s.accel_pressed)
          (latchPressed ButtonType.decelCruise CS.buttonEvents s.decel_pressed)
          (latchLast ButtonType.accelCruise ((frame : ℚ) * DT_CTRL) CS.buttonEvents
            s.accel_pressed_last)
          (latchLast ButtonType.decelCruise ((frame : ℚ) * DT_CTRL) CS.buttonEvents
            s.decel_pressed_last)
          ((frame : ℚ) * DT_CTRL) CS.buttonEvents CS.gasPressed CS.vEgo el im s.v_cruise_kph
      else hondaBwd (hondaSpeedCore rev s.fastMode
          (latchPressed ButtonType.accelCruise CS.buttonEvents s.accel_pressed)
          (latchPressed ButtonType.decelCruise CS.buttonEvents s.decel_pressed)
          (latchLast ButtonType.accelCruise ((frame : ℚ) * DT_CTRL) CS.buttonEvents
            s.accel_pressed_last)
          (latchLast ButtonType.decelCruise ((frame : ℚ) * DT_CTRL) CS.buttonEvents
            s.decel_pressed_last)
          ((frame : ℚ) * DT_CTRL) CS.buttonEvents CS.gasPressed CS.vEgo el im
          s.v_cruise_kph)) := by
  simp only [update_v_cruise, hav, hen, hname, if_pos hpcm]
  simp [honda_latch, update_v_cruise_non_pcm_honda, apply_ite VCruiseHelper.v_cruise_kph]

/-- C1 counterexample: with the PCM owning the set speed (pcmCruise and
pcmCruiseSpeed both true) and a reported cruise speed of 100 m/s, a call to
`update_v_cruise` with cruise available stores 360 kph — outside every
brand's `[min, max]` bounds and distinct from the 255 sentinel, with no
clamping applied. -/
theorem C1_counterexample_pcm_unclamped :
    (update_v_cruise ⟨⟨true, true, false, 100, 100⟩, [], false, 0⟩ true true 0 false
        (mkVCruiseHelper ⟨true, true, "toyota", 0⟩ false)).v_cruise_kph = 360 ∧
    ¬(V_CRUISE_MIN_HONDA ≤ (360 : ℚ) ∧ (360 : ℚ) ≤ V_CRUISE_MAX) ∧
    (360 : ℚ) ≠ V_CRUISE_INITIAL ∧
    (⟨⟨true, true, false, 100, 100⟩, [], false, 0⟩ : CarStateData).cruiseState.available
      = true := by
  refine ⟨?_, by norm_num [V_CRUISE_MIN_HONDA, V_CRUISE_MAX],
    by norm_num [V_CRUISE_INITIAL], rfl⟩
  rw [update_v_cruise_pcm_shape _ _ _ _ _ _ rfl (by simp [mkVCruiseHelper])]
  show (100 : ℚ) * MS_TO_KPH = 360
  norm_num [MS_TO_KPH]

/-- C1 (amended): after `update_v_cruise`, (i) if cruise is unavailable the
speed is the 255 sentinel; (ii) on the synthesized-set-speed path with the
simple (non-Honda) sub-policy, the speed either lies within
`[V_CRUISE_MIN, V_CRUISE_MAX]` (an adjustment was clamped) or is exactly the
pre-call value (no adjustment applied); (iii) likewise for the Honda
sub-policy in metric units with bounds `[V_CRUISE_MIN_HONDA, V_CRUISE_MAX]`.
The PCM-mirror path stores the reported speed unclamped, pass-through paths
can retain out-of-range values (including the sentinel while available), and
the Honda imperial path re-converts the clamped display value past
`V_CRUISE_MAX`; the original claim fails on those paths. -/
theorem C1_bounds_clamping (s : VCruiseHelper) (CS : CarStateData) (el im : Bool)
    (frame : ℕ) (rev : Bool) :
    (CS.cruiseState.available = false →
      (update_v_cruise CS el im frame rev s).v_cruise_kph = V_CRUISE_INITIAL) ∧
    (CS.cruiseState.available = true →
      ¬(s.CP.pcmCruise = true ∧ s.CP.pcmCruiseSpeed = true) →
      CS.cruiseState.enabled = true → ¬(s.CP.carName = "honda") →
      (V_CRUISE_MIN ≤ (update_v_cruise CS el im frame rev s).v_cruise_kph ∧
        (update_v_cruise CS el im frame rev s).v_cruise_kph ≤ V_CRUISE_MAX) ∨
      (update_v_cruise CS el im frame rev s).v_cruise_kph = s.v_cruise_kph) ∧
    (CS.cruiseState.available = true →
      ¬(s.CP.pcmCruise = true ∧ s.CP.pcmCruiseSpeed = true) →
      CS.cruiseState.enabled = true → s.CP.carName = "honda" → im = true →
      (V_CRUISE_MIN_HONDA ≤ (update_v_cruise CS el im frame rev s).v_cruise_kph ∧
        (update_v_cruise CS el im frame rev s).v_cruise_kph ≤ V_CRUISE_MAX) ∨
      (update_v_cruise CS el im frame rev s).v_cruise_kph = s.v_cruise_kph) := by
  refine ⟨?_, ?_, ?_⟩
  · intro hav
    rw [update_v_cruise_unavailable_shape CS el im frame rev s hav]
  · intro hav hpcm hen hname
    rw [update_v_cruise_non_honda_shape CS el im frame rev s hav hpcm hen hname]
    exact nonPcmCore_mem_or_eq _ _ _ _ _ _ _ _ _ _ _ _
  · intro hav hpcm hen hname him
    rw [update_v_cruise_honda_v CS el im frame rev s hav hpcm hen hname, him]
    rw [if_pos rfl]
    exact hondaSpeedCore_metric_mem_or_eq _ _ _ _ _ _ _ _ _ _ _ _

/-- C1 (amended) witness: with cruise unavailable the sentinel is stored. -/
theorem C1_bounds_witness :
    (update_v_cruise ⟨⟨false, false, false, 0, 0⟩, [], false, 0⟩ true true 0 false
        (mkVCruiseHelper ⟨false, false, "toyota", 0⟩ false)).v_cruise_kph =
      V_CRUISE_INITIAL := by
  exact (C1_bounds_clamping (mkVCruiseHelper ⟨false, false, "toyota", 0⟩ false)
    ⟨⟨false, false, false, 0, 0⟩, [], false, 0⟩ true true 0 false).1 rfl

theorem nextTimer_nil (bt : ButtonType) (t : ℕ) :
    nextTimer [] bt t = if t > 0 then t + 1 else t := rfl

/-- After a cycle whose Honda speed (display units) is `w`, a second cycle
that fires no hold-driven step maps the converted speed back to itself:
the unit roundtrip is stable on integer display values and the clamp is
idempotent. -/
theorem hondaPipe_fix (rev fast2 ap2 dp2 : Bool) (alast2 dlast2 ct : ℚ) (gas : Bool)
    (vEgo : ℚ) (el im : Bool) (w : ℚ)
    (hnfa : ap2 = true → ¬(ct - alast2 ≥ 1 ∨ (fast2 = true ∧ ct - alast2 ≥ 1 / 2)))
    (hnfd : dp2 = true → ¬(ct - dlast2 ≥ 1 ∨ (fast2 = true ∧ ct - dlast2 ≥ 1 / 2)))
    (hint : im = false → ∃ k : ℤ, w = (k : ℚ))
    (hclip : el = true → ∃ y : ℚ, w = clip y V_CRUISE_MIN_HONDA V_CRUISE_MAX) :
    (if im then
        hondaSpeedCore rev fast2 ap2 dp2 alast2 dlast2 ct [] gas vEgo el im
          (if im then w else hondaBwd w)
      else
        hondaBwd (hondaSpeedCore rev fast2 ap2 dp2 alast2 dlast2 ct [] gas vEgo el im
          (if im then w else hondaBwd w))) =
      (if im then w else hondaBwd w) := by
  have h515 : V_CRUISE_MIN_HONDA ≤ V_CRUISE_MAX := by
    norm_num [V_CRUISE_MIN_HONDA, V_CRUISE_MAX]
  rw [hondaSpeedCore_noFire rev fast2 ap2 dp2 alast2 dlast2 ct gas vEgo el im _ hnfa hnfd]
  cases im
  · obtain ⟨k, hk⟩ := hint rfl
    simp only [Bool.false_eq_true, if_false]
    have hfwd : hondaFwd (hondaBwd w) = w := by
      rw [hk]
      exact hondaFwd_hondaBwd k
    rw [hfwd]
    cases el
    · simp only [Bool.false_eq_true, if_false]
    · simp only [if_true]
      obtain ⟨y, hy⟩ := hclip rfl
      rw [hy, clip_idem _ _ _ h515]
  · simp only [if_true]
    cases el
    · simp only [Bool.false_eq_true, if_false]
    · simp only [if_true]
      obtain ⟨y, hy⟩ := hclip rfl
      rw [hy, clip_idem _ _ _ h515]

/-- A second `update_v_cruise` cycle with no button events leaves the Honda
branch's `v_cruise_kph` unchanged. -/
theorem update_honda_idem (CS : CarStateData) (el im : Bool) (frame : ℕ) (rev : Bool)
    (s : VCruiseHelper)
    (hav : CS.cruiseState.available = true)
    (hpcm : ¬(s.CP.pcmCruise = true ∧ s.CP.pcmCruiseSpeed = true))
    (hen : CS.cruiseState.enabled = true)
    (hname : s.CP.carName = "honda")
    (hev : CS.buttonEvents = []) :
    (update_v_cruise CS el im frame rev (update_v_cruise CS el im frame rev s)).v_cruise_kph
      = (update_v_cruise CS el im frame rev s).v_cruise_kph := by
  rw [update_v_cruise_honda_shape CS el im frame rev s hav hpcm hen hname hev]
  dsimp only
  by_cases hp : (s.accel_pressed || s.decel_pressed) = true
  · rw [if_pos hp]
    by_cases hv : s.v_cruise_kph ≠ (if im then hondaSpeedCore rev s.fastMode s.accel_pressed
        s.decel_pressed s.accel_pressed_last s.decel_pressed_last ((frame : ℚ) * DT_CTRL) []
        CS.gasPressed CS.vEgo el im s.v_cruise_kph
      else hondaBwd (hondaSpeedCore rev s.fastMode s.accel_pressed s.decel_pressed
        s.accel_pressed_last s.decel_pressed_last ((frame : ℚ) * DT_CTRL) [] CS.gasPressed
        CS.vEgo el im s.v_cruise_kph))
    · rw [if_pos hv]
      rw [update_v_cruise_honda_v CS el im frame rev _ hav (by exact hpcm) hen
        (by exact hname), hev]
      simp only [latchPressed, latchLast, List.foldl_nil]
      apply hondaPipe_fix
      · intro _
        rw [sub_self]
        norm_num
      · intro _
        rw [sub_self]
        norm_num
      · intro him
        subst him
        exact hondaSpeedCore_isInt _ _ _ _ _ _ _ _ _ _ _
      · intro hel
        subst hel
        exact hondaSpeedCore_el_clip _ _ _ _ _ _ _ _ _ _ _ _
    · rw [if_neg hv]
      have hveq := not_ne_iff.mp hv
      rw [update_v_cruise_honda_v CS el im frame rev _ hav (by exact hpcm) hen
        (by exact hname), hev]
      simp only [latchPressed, latchLast, List.foldl_nil]
      rw [← hveq]
      exact hveq.symm
  · rw [if_neg hp]
    have haps : s.accel_pressed = false := by
      revert hp
      cases s.accel_pressed <;> simp
    have hdps : s.decel_pressed = false := by
      revert hp
      cases s.decel_pressed <;> simp
    rw [update_v_cruise_honda_v CS el im frame rev _ hav (by exact hpcm) hen
      (by exact hname), hev]
    simp only [latchPressed, latchLast, List.foldl_nil]
    apply hondaPipe_fix
    · intro h
      rw [haps] at h
      exact absurd h (by simp)
    · intro h
      rw [hdps] at h
      exact absurd h (by simp)
    · intro him
      subst him
      exact hondaSpeedCore_isInt _ _ _ _ _ _ _ _ _ _ _
    · intro hel
      subst hel
      exact hondaSpeedCore_el_clip _ _ _ _ _ _ _ _ _ _ _ _

/-- C5 counterexample: with no button events at all, two identical
`update_v_cruise` calls are not idempotent when a held button's timer
crosses a multiple of `CRUISE_LONG_PRESS` between them: starting from a
timer of 49, the first call leaves the speed at 50 and the second call
fires a long-press tick, stepping the speed to 60. -/
theorem C5_counterexample_timer_crossing :
    (update_v_cruise ⟨⟨true, true, false, 0, 0⟩, [], false, 0⟩ true true 0 false
        (update_v_cruise ⟨⟨true, true, false, 0, 0⟩, [], false, 0⟩ true true 0 false
          { mkVCruiseHelper ⟨false, false, "toyota", 0⟩ false with
              v_cruise_kph := 50, button_timer_accel := 49 })).v_cruise_kph = 60 ∧
    (update_v_cruise ⟨⟨true, true, false, 0, 0⟩, [], false, 0⟩ true true 0 false
        { mkVCruiseHelper ⟨false, false, "toyota", 0⟩ false with
            v_cruise_kph := 50, button_timer_accel := 49 }).v_cruise_kph = 50 ∧
    (60 : ℚ) ≠ 50 := by
  have h1 : update_v_cruise ⟨⟨true, true, false, 0, 0⟩, [], false, 0⟩ true true 0 false
      { mkVCruiseHelper ⟨false, false, "toyota", 0⟩ false with
          v_cruise_kph := 50, button_timer_accel := 49 } =
      { mkVCruiseHelper ⟨false, false, "toyota", 0⟩ false with
          v_cruise_kph := 50, v_cruise_cluster_kph := 50, v_cruise_kph_last := 50,
          button_timer_accel := 50 } := by
    rw [update_v_cruise_non_honda_shape _ _ _ _ _ _ rfl (by simp [mkVCruiseHelper]) rfl
      (by simp [mkVCruiseHelper])]
    have hW : nonPcmCore false 49 0 false false [] false false 0 true true 50 = 50 :=
      nonPcmCore_no_tick false 49 0 false false [] false false 0 true true 50 rfl
        (by norm_num [CRUISE_LONG_PRESS]) (by norm_num)
    show ({ mkVCruiseHelper ⟨false, false, "toyota", 0⟩ false with
        v_cruise_kph := nonPcmCore false 49 0 false false [] false false 0 true true 50,
        v_cruise_cluster_kph := nonPcmCore false 49 0 false false [] false false 0 true true 50,
        v_cruise_kph_last := 50, button_timer_accel := 50 } : VCruiseHelper) = _
    rw [hW]
  refine ⟨?_, by rw [h1], by norm_num⟩
  rw [h1]
  rw [update_v_cruise_non_honda_shape _ _ _ _ _ _ rfl (by simp [mkVCruiseHelper]) rfl
    (by simp [mkVCruiseHelper])]
  show nonPcmCore false 50 0 false false [] false false 0 true true 50 = 60
  rw [nonPcmCore_long_tick_accel false 50 0 false false [] false false 0 true 50 rfl
    (by norm_num [CRUISE_LONG_PRESS]) (by norm_num), nonPcmAdjust_accel_long]
  rw [if_neg (by norm_num [qmod])]
  norm_num [clip, round1, intRound, V_CRUISE_MIN, V_CRUISE_MAX]

/-- C5 (amended): calling `update_v_cruise` twice with identical inputs
whose button-event list is empty produces no change in `v_cruise_kph`
between the first and second call — for both the simple and the Honda
ramping sub-policy, metric or imperial — provided no held button's timer is
one cycle short of a multiple of `CRUISE_LONG_PRESS` at entry (otherwise
the second call lands on a long-press tick, which the counterexample
exhibits). -/
theorem C5_idempotent_no_buttons (s : VCruiseHelper) (CS : CarStateData)
    (el im : Bool) (frame : ℕ) (rev : Bool)
    (hev : CS.buttonEvents = [])
    (hta : s.button_timer_accel > 0 →
      (s.button_timer_accel + 1) % CRUISE_LONG_PRESS ≠ 0)
    (htd : s.button_timer_decel > 0 →
      (s.button_timer_decel + 1) % CRUISE_LONG_PRESS ≠ 0) :
    (update_v_cruise CS el im frame rev (update_v_cruise CS el im frame rev s)).v_cruise_kph
      = (update_v_cruise CS el im frame rev s).v_cruise_kph := by
  by_cases hav : CS.cruiseState.available = true
  · by_cases hpcm : s.CP.pcmCruise = true ∧ s.CP.pcmCruiseSpeed = true
    · rw [update_v_cruise_pcm_shape CS el im frame rev s hav hpcm]
      rw [update_v_cruise_pcm_shape CS el im frame rev _ hav (by exact hpcm)]
    · by_cases hen : CS.cruiseState.enabled = true
      · by_cases hname : s.CP.carName = "honda"
        · exact update_honda_idem CS el im frame rev s hav hpcm hen hname hev
        · rw [update_v_cruise_non_honda_shape CS el im frame rev s hav hpcm hen hname]
          rw [update_v_cruise_non_honda_shape CS el im frame rev _ hav (by exact hpcm) hen
            (by exact hname)]
          show nonPcmCore rev (nextTimer CS.buttonEvents ButtonType.accelCruise
              s.button_timer_accel) (nextTimer CS.buttonEvents ButtonType.decelCruise
              s.button_timer_decel) _ _ CS.buttonEvents CS.cruiseState.standstill
              CS.gasPressed CS.vEgo el im _ = _
          rw [hev]
          apply nonPcmCore_no_tick
          · rfl
          · rw [nextTimer_nil]
            by_cases h0 : s.button_timer_accel > 0
            · rw [if_pos h0]
              intro hc
              exact hta h0 hc.2
            · rw [if_neg h0]
              intro hc
              exact hc.1 (by omega)
          · rw [nextTimer_nil]
            by_cases h0 : s.button_timer_decel > 0
            · rw [if_pos h0]
              intro hc
              exact htd h0 hc.2
            · rw [if_neg h0]
              intro hc
              exact hc.1 (by omega)
      · have hen' : CS.cruiseState.enabled = false := by
          revert hen
          cases CS.cruiseState.enabled <;> simp
        rw [update_v_cruise_not_enabled_shape CS el im frame rev s hav hpcm hen']
        rw [update_v_cruise_not_enabled_shape CS el im frame rev _ hav (by exact hpcm) hen']
  · have hav' : CS.cruiseState.available = false := by
      revert hav
      cases CS.cruiseState.available <;> simp
    rw [update_v_cruise_unavailable_shape CS el im frame rev s hav']
    rw [update_v_cruise_unavailable_shape CS el im frame rev _ hav']

/-- C5 (amended) witness. -/
theorem C5_idempotent_witness :
    (update_v_cruise ⟨⟨true, true, false, 0, 0⟩, [], false, 0⟩ true true 0 false
        (update_v_cruise ⟨⟨true, true, false, 0, 0⟩, [], false, 0⟩ true true 0 false
          { mkVCruiseHelper ⟨false, false, "toyota", 0⟩ false with
              v_cruise_kph := 50 })).v_cruise_kph =
      (update_v_cruise ⟨⟨true, true, false, 0, 0⟩, [], false, 0⟩ true true 0 false
        { mkVCruiseHelper ⟨false, false, "toyota", 0⟩ false with
            v_cruise_kph := 50 }).v_cruise_kph := by
  exact C5_idempotent_no_buttons _ _ true true 0 false rfl
    (by simp [mkVCruiseHelper]) (by simp [mkVCruiseHelper])
